import Mathlib

/-!
Shallow embedding of `mmdet3d/datasets/once_dataset.py` (class `OnceDataset`)
and proofs about its coordinate transforms, annotation access, result
formatting and evaluation glue.

Numbers: numpy / torch floating point is modelled by exact real arithmetic
(`ℝ`); metric values handed around by the evaluation trampoline are modelled
by `ℚ` so that rounding is exact.  A 7-parameter box
`(cx, cy, cz, dx, dy, dz, yaw)` is one row of the numpy array `boxes_3d`,
modelled as `Fin 7 → ℝ`.
-/

namespace Once

/-- One row of a `boxes_3d` numpy array: `(cx, cy, cz, dx, dy, dz, yaw)`. -/
abbrev Box : Type := Fin 7 → ℝ

/-- The matrix `Tr_lidar_to_standard = [[0, -1, 0], [1, 0, 0], [0, 0, 1]]`
applied to ground-truth box centers in `get_ann_info`. -/
def Tr_lidar_to_standard : Matrix (Fin 3) (Fin 3) ℝ :=
  !![0, -1, 0; 1, 0, 0; 0, 0, 1]

/-- The matrix `Tr_standard_to_lidar = [[0, 1, 0], [-1, 0, 0], [0, 0, 1]]`
applied to predicted box centers in `_format_boxes_3d`. -/
def Tr_standard_to_lidar : Matrix (Fin 3) (Fin 3) ℝ :=
  !![0, 1, 0; -1, 0, 0; 0, 0, 1]

/-- The slice `box[:3]` of a box row: its center `(cx, cy, cz)`. -/
def center (b : Box) : Fin 3 → ℝ := ![b 0, b 1, b 2]

/-- The ground-truth box conversion performed in `get_ann_info`:
`gt_bboxes_3d[:, :3] = Tr_lidar_to_standard @ center` followed by
`gt_bboxes_3d[:, 6] += np.pi / 2`.  The two sequential slice assignments are
written as a single row literal: the rotation leaves columns 3..6 untouched
and the yaw increment touches only column 6. -/
noncomputable def gtConvertBox (b : Box) : Box :=
  let c := Tr_lidar_to_standard.mulVec (center b)
  ![c 0, c 1, c 2, b 3, b 4, b 5, b 6 + Real.pi / 2]

/-- The per-row content of `_format_boxes_3d`:
`boxes_3d[:, :3] = Tr_standard_to_lidar @ center`, then
`boxes_3d[:, 2] = boxes_3d[:, 2] + boxes_3d[:, 5] * 0.5`, then
`boxes_3d[:, 6] -= np.pi / 2`.  The z update reads column 2 after the
rotation (which is `c 2`) and column 5, which no step modifies. -/
noncomputable def formatBox3d (b : Box) : Box :=
  let c := Tr_standard_to_lidar.mulVec (center b)
  ![c 0, c 1, c 2 + b 5 * 0.5, b 3, b 4, b 5, b 6 - Real.pi / 2]

/-- Whole-array version of `_format_boxes_3d` (maps `formatBox3d` over the
rows of `boxes_3d.tensor.numpy()`). -/
noncomputable def format_boxes_3d (boxes : List Box) : List Box :=
  boxes.map formatBox3d

/-- The annos dict of a frame record (the `annos` key of `info`): the raw
ground-truth box array and the class-name array. -/
structure Annos where
  boxes_3d : List Box
  name : List String

/-- Per-camera entry of the calib dict of a frame record. -/
structure CamCalib where
  cam_to_velo : Matrix (Fin 4) (Fin 4) ℝ
  cam_intrinsic : Matrix (Fin 3) (Fin 3) ℝ

/-- One entry of `self.data_infos`: a frame record. -/
structure FrameInfo where
  frame_id : String
  sequence_id : String
  lidar_path : String
  calib : String → CamCalib
  annos : Option Annos

/-- The dataset state used by the methods under study.  `data_infos` is the
mutable store that `get_ann_info` writes back into. -/
structure Dataset where
  data_root : String
  test_mode : Bool
  filter_empty_gt : Bool
  data_infos : List FrameInfo

instance : Inhabited Annos := ⟨⟨[], []⟩⟩

instance : Inhabited CamCalib := ⟨⟨0, 0⟩⟩

instance : Inhabited FrameInfo :=
  ⟨⟨"", "", "", fun _ => default, none⟩⟩

/-- The class tuple `OnceDataset.CLASSES` (the misspelling `Pedestrain` is
the misspelling of the source). -/
def CLASSES : List String := ["Car", "Bus", "Truck", "Pedestrain", "Cyclist"]

/-- Label assignment of `get_ann_info`: `self.CLASSES.index(cat)` when
`cat in self.CLASSES`, else `-1`. -/
def classLabel (cat : String) : ℤ :=
  if cat ∈ CLASSES then (CLASSES.indexOf cat : ℤ) else -1

/-- The dict `anns_results` returned by `get_ann_info`.  `gt_bboxes_3d`
holds the converted numpy rows handed to the external
`LiDARInstance3DBoxes` wrapper. -/
structure AnnResult where
  gt_bboxes_3d : List Box
  gt_labels_3d : List ℤ
  gt_labels : List ℤ
  gt_names : List String

instance : Inhabited AnnResult := ⟨⟨[], [], [], []⟩⟩

/-- Embedding of `OnceDataset.get_ann_info`.  The numpy slice assignments
`gt_bboxes_3d[:, :3] = ...` and `gt_bboxes_3d[:, 6] += np.pi / 2` mutate
the box array stored in the annos dict of `self.data_infos[index]` in
place, so the
function returns the updated dataset state next to its result.  `none`
stands for the Python `None` returned when the annos key is missing (an
out-of-range index, which raises in Python, is also mapped to `none`;
every theorem below supplies a valid index). -/
noncomputable def get_ann_info (ds : Dataset) (index : ℕ) :
    Dataset × Option AnnResult :=
  match ds.data_infos.get? index with
  | none => (ds, none)
  | some info =>
    match info.annos with
    | none => (ds, none)
    | some annos =>
      let newBoxes := annos.boxes_3d.map gtConvertBox
      let info2 := { info with annos := some { annos with boxes_3d := newBoxes } }
      let ds2 := { ds with data_infos := ds.data_infos.set index info2 }
      let gt_names := annos.name
      let gt_labels := gt_names.map classLabel
      (ds2, some { gt_bboxes_3d := newBoxes, gt_labels_3d := gt_labels,
                   gt_labels := gt_labels, gt_names := gt_names })

/-- The camera list set in `OnceDataset.__init__`. -/
def camera_list : List String :=
  ["cam01", "cam03", "cam05", "cam06", "cam07", "cam08", "cam09"]

/-- The `viewpad` matrix of `get_data_info`: `np.eye(4)` with the camera
intrinsic written into the top-left 3x3 block. -/
def viewpad (intrinsic : Matrix (Fin 3) (Fin 3) ℝ) :
    Matrix (Fin 4) (Fin 4) ℝ :=
  Matrix.of fun i j =>
    if hi : (i : ℕ) < 3 then
      if hj : (j : ℕ) < 3 then intrinsic ⟨i, hi⟩ ⟨j, hj⟩ else 0
    else if (i : ℕ) = (j : ℕ) then 1 else 0

/-- The per-camera matrix computed in `get_data_info`:
`lidar2cam = np.linalg.inv(cam2lidar)` then
`lidar2img = viewpad @ lidar2cam.T`. -/
noncomputable def lidar2imgOf (c : CamCalib) : Matrix (Fin 4) (Fin 4) ℝ :=
  viewpad c.cam_intrinsic * (c.cam_to_velo⁻¹).transpose

/-- The `input_dict` assembled by `get_data_info`.  The `ann_info` field is
doubly optional: the outer layer records whether the key is present at all
(it is added only when `not self.test_mode`), the inner layer is the value
returned by `get_ann_info` (which can be `None`). -/
structure InputDict where
  sample_idx : String
  pts_filename : String
  img_filename : List String
  lidar2img : List (Matrix (Fin 4) (Fin 4) ℝ)
  ann_info : Option (Option AnnResult)

/-- Embedding of `OnceDataset.get_data_info`.  Returns the updated dataset
state because the `get_ann_info` call it makes in train mode mutates
`data_infos`. -/
noncomputable def get_data_info (ds : Dataset) (index : ℕ) :
    Dataset × Option InputDict :=
  match ds.data_infos.get? index with
  | none => (ds, none)
  | some info =>
    let base : InputDict :=
      { sample_idx := info.frame_id
        pts_filename := info.lidar_path
        img_filename := camera_list.map fun cam =>
          ds.data_root ++ "/data/" ++ info.sequence_id ++ "/" ++ cam ++
            "/" ++ info.frame_id ++ ".jpg"
        lidar2img := camera_list.map fun cam => lidar2imgOf (info.calib cam)
        ann_info := none }
    if ds.test_mode then (ds, some base)
    else
      let res := get_ann_info ds index
      (res.1, some { base with ann_info := some res.2 })

/-- Pipeline output as far as `prepare_train_data` inspects it:
the data of the `gt_labels_3d` entry of `example`. -/
structure TrainSample where
  gt_labels_3d : List ℤ

/-- Embedding of `OnceDataset.prepare_train_data`.  The data pipeline
(`self.pipeline`, an external `Compose`) is a parameter; `none` models a
pipeline returning `None`.  The `Except` layer models the `KeyError`
raised by the `ann_info` lookup when the key is absent (test mode). -/
noncomputable def prepare_train_data (pipeline : InputDict → Option TrainSample)
    (ds : Dataset) (index : ℕ) : Dataset × Except String (Option TrainSample) :=
  let step := get_data_info ds index
  match step.2 with
  | none => (step.1, .ok none)
  | some input =>
    match input.ann_info with
    | none => (step.1, .error "KeyError: ann_info")
    | some none => (step.1, .ok none)
    | some (some _) =>
      match pipeline input with
      | none => (step.1, .ok none)
      | some ex =>
        if ds.filter_empty_gt && ex.gt_labels_3d.all (fun l => l == -1) then
          (step.1, .ok none)
        else (step.1, .ok (some ex))

/-- One testing result dict: `boxes_3d`, `scores_3d`, `labels_3d`. -/
structure Pred where
  boxes_3d : List Box
  scores_3d : List ℝ
  labels_3d : List ℤ

/-- Numpy integer indexing `arr[i]` into a 1-d array of length `l.length`:
nonnegative indices are plain positions, negative indices in
`[-len, -1]` wrap around from the end, anything else raises `IndexError`
(modelled as `none`). -/
def npIndex (l : List String) (i : ℤ) : Option String :=
  if 0 ≤ i ∧ i < (l.length : ℤ) then l.get? i.toNat
  else if -(l.length : ℤ) ≤ i ∧ i < 0 then l.get? (i + (l.length : ℤ)).toNat
  else none

/-- One entry of the `annos` list built by `_format_results`: the
JSON-serializable per-frame prediction record. -/
structure PredRecord where
  name : List (Option String)
  score : List ℝ
  boxes_3d : List Box
  frame_id : String

/-- The body of the `_format_results` loop for one frame: the zero-filled
`pred_dict` is overwritten whenever `num_samples != 0` (with
`num_samples = pred_scores.shape[0]`), and
the name entry is `np.array(self.CLASSES)` indexed at
`pred_labels - 1`. -/
noncomputable def formatSingle (info : FrameInfo) (result : Pred) : PredRecord :=
  if result.scores_3d.length = 0 then
    { name := [], score := [], boxes_3d := [], frame_id := info.frame_id }
  else
    { name := result.labels_3d.map fun l => npIndex CLASSES (l - 1)
      score := result.scores_3d
      boxes_3d := format_boxes_3d result.boxes_3d
      frame_id := info.frame_id }

/-- The `enumerate(results)` loop of `_format_results`: pairs each result
with `self.data_infos[idx]`; `none` models the `IndexError` raised when
`results` is longer than `data_infos`. -/
noncomputable def buildRecords :
    List FrameInfo → List Pred → Option (List PredRecord)
  | _, [] => some []
  | [], _ :: _ => none
  | info :: infos, p :: ps =>
    (buildRecords infos ps).map fun rest => formatSingle info p :: rest

/-- Embedding of `OnceDataset._format_results`.  The first component lists
the file writes performed (`mmcv.dump(annos, res_path)`), the second is the
returned `res_path`.  When `jsonfile_prefix` is `None` the function reaches
`return res_path` with `res_path` unbound, a `NameError` (modelled as
`.error`); its callers in this file always pass a path. -/
noncomputable def _format_results (ds : Dataset) (results : List Pred)
    (jsonfileBase : Option String) :
    List (String × List PredRecord) × Except String String :=
  match buildRecords ds.data_infos results with
  | none => ([], .error "IndexError: data_infos")
  | some annos =>
    match jsonfileBase with
    | some base =>
      let res_path := base ++ "/results_once.json"
      ([(res_path, annos)], .ok res_path)
    | none => ([], .error "NameError: res_path")

/-- One element of the `results` argument of `format_results`: either a
plain prediction dict or a per-modality dict with keys `pts_bbox` or
`img_bbox`. -/
inductive ResultItem where
  | plain : Pred → ResultItem
  | nested : List (String × Pred) → ResultItem

/-- Python `key in results[0]`: a plain result dict has the prediction keys
only, a nested one has its modality keys. -/
def itemHasKey : ResultItem → String → Bool
  | .plain _, k => decide (k ∈ ["boxes_3d", "scores_3d", "labels_3d"])
  | .nested kvs, k => (kvs.map Prod.fst).contains k

/-- Keys of `results[0]`, in insertion order, for the loop
`for name in results[0]`. -/
def itemKeys : ResultItem → List String
  | .plain _ => ["boxes_3d", "scores_3d", "labels_3d"]
  | .nested kvs => kvs.map Prod.fst

/-- The `results` argument of `format_results` before the
`isinstance(results, list)` assertion: `notList` stands for any non-list
Python value. -/
inductive PyResults where
  | list : List ResultItem → PyResults
  | notList : PyResults

/-- The `result_files` value returned by `format_results`: a single json
path, or one path per key of `results[0]`. -/
inductive ResultFiles where
  | single : String → ResultFiles
  | perName : List (String × String) → ResultFiles

/-- Interpret every result item as a plain prediction dict (the branch of
`format_results` without modality keys); a nested item there would make
the `scores_3d` lookup raise `KeyError`. -/
def asPlainList (items : List ResultItem) : Option (List Pred) :=
  items.mapM fun item =>
    match item with
    | .plain p => some p
    | .nested _ => none

/-- Project every result item onto key `name` (the list comprehension
`[out[name] for out in results]`); a missing key raises `KeyError`. -/
def projectKey (items : List ResultItem) (key : String) : Option (List Pred) :=
  items.mapM fun item =>
    match item with
    | .plain _ => none
    | .nested kvs => kvs.lookup key

/-- Loop body of the modality branch of `format_results`: for each key of
`results[0]`, format the projected results under
`tmp_file_ = osp.join(jsonfile_prefix, name)`, accumulating the writes and
the `{name: res_path}` entries. -/
noncomputable def formatPerName (ds : Dataset) (items : List ResultItem)
    (base : String) :
    List String → Option (List (String × List PredRecord) × List (String × String))
  | [] => some ([], [])
  | key :: keys => do
    let results2 ← projectKey items key
    let step := _format_results ds results2 (some (base ++ "/" ++ key))
    match step.2 with
    | .error _ => none
    | .ok path => do
      let rest ← formatPerName ds items base keys
      pure (step.1 ++ rest.1, (key, path) :: rest.2)

/-- Embedding of `OnceDataset.format_results`.  The first component lists
the file writes performed; the second carries the assertion errors
(`results must be a list`, length mismatch) and the other raised errors,
or the returned `(result_files, tmp_dir)` with `tmp_dir.isSome` recording
that a temporary directory was created because `jsonfile_prefix` was
`None` (its path is abbreviated `TMPDIR/results`). -/
noncomputable def format_results (ds : Dataset) (results : PyResults)
    (jsonfileBase : Option String) :
    List (String × List PredRecord) × Except String (ResultFiles × Option String) :=
  match results with
  | .notList => ([], .error "results must be a list")
  | .list items =>
    if items.length ≠ ds.data_infos.length then
      ([], .error "The length of results is not equal to the dataset len")
    else
      let tmp_dir : Option String :=
        if jsonfileBase.isNone then some "TMPDIR" else none
      let base := jsonfileBase.getD "TMPDIR/results"
      match items with
      | [] => ([], .error "IndexError: results")
      | r0 :: _ =>
        if itemHasKey r0 "pts_bbox" || itemHasKey r0 "img_bbox" then
          match formatPerName ds items base (itemKeys r0) with
          | none => ([], .error "KeyError: modality")
          | some (writes, entries) =>
            (writes, .ok (.perName entries, tmp_dir))
        else
          match asPlainList items with
          | none => ([], .error "KeyError: scores_3d")
          | some preds =>
            let step := _format_results ds preds (some base)
            match step.2 with
            | .error e => (step.1, .error e)
            | .ok path => (step.1, .ok (.single path, tmp_dir))

/-- Rounding of a metric value: Python formats it to four decimal places
and parses it back to a float; modelled exactly on `ℚ`. -/
def round4 (q : ℚ) : ℚ := (round (q * 10000) : ℤ) / 10000

/-- Signature of the external collaborator
`mmdet3d.core.evaluation.once_eval`: ground-truth annos, result file path,
class names and optional `eval_types`, returning the result string and the
metric dict (metric values modelled as `ℚ`). -/
abbrev OnceEval : Type :=
  List Annos → String → List String → Option (List String) → String × List (String × ℚ)

/-- Embedding of `OnceDataset.evaluate`: formats the results, gathers
the annos dict of every entry of `self.data_infos` (a `KeyError` when a
frame has no annos), then forwards both to `once_eval`.  In the
per-modality case each metric is republished under the key
`name ++ / ++ ap_type` with its value rounded to four decimal places; in
the single case the `ap_dict` of `once_eval` is returned unchanged. -/
noncomputable def evaluate (ds : Dataset) (results : PyResults)
    (jsonfileBase : Option String) (once_eval : OnceEval) :
    Except String (List (String × ℚ)) :=
  let step := format_results ds results jsonfileBase
  match step.2 with
  | .error e => .error e
  | .ok (result_files, _) =>
    match ds.data_infos.mapM (fun info => info.annos) with
    | none => .error "KeyError: annos"
    | some gt_annos =>
      match result_files with
      | .perName entries =>
        .ok (entries.flatMap fun entry =>
          (once_eval gt_annos entry.2 CLASSES (some ["Overall&Distance"])).2.map
            fun m => (entry.1 ++ "/" ++ m.1, round4 m.2))
      | .single path =>
        .ok (once_eval gt_annos path CLASSES none).2

/-- Modelled from the spec: the `LiDARInstance3DBoxes` constructor called by
`get_ann_info` with `origin=(0.5, 0.5, 0.5)` is code of this repository that
is not under `src/`; per the spec it performs the
"bottom-center → geometric-center convention change" in the opposite
direction on input, storing the bottom center, i.e. it shifts the given
gravity-center z down by half the box height. -/
noncomputable def originShiftBox (b : Box) : Box :=
  Function.update b 2 (b 2 - b 5 * 0.5)

instance : Inhabited InputDict := ⟨⟨"", "", [], [], none⟩⟩

instance : Inhabited PredRecord := ⟨⟨[], [], [], ""⟩⟩

/-- A box with height `dz = 2` and all other parameters zero. -/
noncomputable def bC1 : Box := ![0, 0, 0, 0, 0, 2, 0]

/-- A box row with `cx = 1` used to exhibit the in-place mutation. -/
noncomputable def b5box : Box := ![1, 0, 0, 1, 1, 1, 0]

/-- The all-zero box row. -/
def zeroBox : Box := fun _ => 0

/-- An annos dict holding the single box `b5box` named `Car`. -/
noncomputable def annos5 : Annos := { boxes_3d := [b5box], name := ["Car"] }

/-- One-frame dataset whose frame carries one annotated box. -/
noncomputable def frame5 : FrameInfo :=
  { frame_id := "f0", sequence_id := "s0", lidar_path := "p.bin",
    calib := fun _ => default,
    annos := some annos5 }

noncomputable def ds5 : Dataset :=
  { data_root := "root", test_mode := false, filter_empty_gt := true,
    data_infos := [frame5] }

/-- A one-element result list predicting label `0` with score `9/10`. -/
noncomputable def pred6 : Pred :=
  { boxes_3d := [zeroBox], scores_3d := [(9 : ℝ) / 10], labels_3d := [0] }

/-- The prediction records `_format_results` builds for `ds5` and `pred6`. -/
noncomputable def recs6 : List PredRecord :=
  (buildRecords ds5.data_infos [pred6]).getD []

/-- A pure-translation camera-to-lidar calibration matrix (translate x by 1). -/
def T7 : Matrix (Fin 4) (Fin 4) ℝ :=
  !![1, 0, 0, 1; 0, 1, 0, 0; 0, 0, 1, 0; 0, 0, 0, 1]

/-- The inverse of `T7` (translate x by -1). -/
def S7 : Matrix (Fin 4) (Fin 4) ℝ :=
  !![1, 0, 0, -1; 0, 1, 0, 0; 0, 0, 1, 0; 0, 0, 0, 1]

/-- Calibration with identity intrinsic and translation `T7`. -/
def calib7 : CamCalib := { cam_to_velo := T7, cam_intrinsic := 1 }

noncomputable def frame7 : FrameInfo :=
  { frame_id := "000000", sequence_id := "seq", lidar_path := "lp.bin",
    calib := fun _ => calib7, annos := none }

noncomputable def ds7 : Dataset :=
  { data_root := "r", test_mode := true, filter_empty_gt := true,
    data_infos := [frame7] }

/-- The `lidar2img` list produced by `get_data_info` on `ds7`. -/
noncomputable def lidar2imgs7 : List (Matrix (Fin 4) (Fin 4) ℝ) :=
  (((get_data_info ds7 0).2).map InputDict.lidar2img).getD []

/-- An annotated frame with no boxes (used where box contents are
irrelevant). -/
noncomputable def annos8 : Annos := { boxes_3d := [], name := ["Car"] }

noncomputable def frame8 : FrameInfo :=
  { frame_id := "f8", sequence_id := "s8", lidar_path := "p8.bin",
    calib := fun _ => default, annos := some annos8 }

noncomputable def ds8 : Dataset :=
  { data_root := "r8", test_mode := false, filter_empty_gt := true,
    data_infos := [frame8] }

/-- A prediction dict with no detections. -/
def emptyPred : Pred := { boxes_3d := [], scores_3d := [], labels_3d := [] }

/-- A modality-split result list: one frame, key `pts_bbox` only. -/
def results8 : PyResults := .list [.nested [("pts_bbox", emptyPred)]]

/-- A stub external metric function returning the single metric
`m = 1/5000`. -/
def onceEv8 : OnceEval := fun _ _ _ _ => ("report", [("m", 1 / 5000)])

/-- An annos dict with one in-class name and one unknown name. -/
def annos9 : Annos := { boxes_3d := [zeroBox, zeroBox], name := ["Car", "Dog"] }

/-- Frame for the training-data claims: one in-class name, one unknown
name. -/
noncomputable def frame9 : FrameInfo :=
  { frame_id := "f9", sequence_id := "s9", lidar_path := "p9.bin",
    calib := fun _ => default,
    annos := some annos9 }

noncomputable def ds9 : Dataset :=
  { data_root := "r9", test_mode := false, filter_empty_gt := true,
    data_infos := [frame9] }

/-- A training sample whose only label is `0`. -/
def sample9 : TrainSample := { gt_labels_3d := [0] }

/-- A stub pipeline that always yields `sample9`. -/
def pipe9 : InputDict → Option TrainSample := fun _ => some sample9

/-- The `input_dict` produced by `get_data_info` on `ds9`. -/
noncomputable def input9 : InputDict := ((get_data_info ds9 0).2).getD default

/-- A plain (no modality key) one-frame result list. -/
def results10 : PyResults := .list [.plain emptyPred]

/-- The annotation result `get_ann_info` produces on `ds9`. -/
noncomputable def r9 : AnnResult := ((get_ann_info ds9 0).2).getD default

/-- The records `_format_results` builds for `ds8` and `[emptyPred]`. -/
noncomputable def recs10 : List PredRecord :=
  (buildRecords ds8.data_infos [emptyPred]).getD []

/-- Writes and `{name: path}` entries of the modality branch on `ds8`. -/
noncomputable def pe10 :
    List (String × List PredRecord) × List (String × String) :=
  (formatPerName ds8 [.nested [("pts_bbox", emptyPred)]] "out"
    ["pts_bbox"]).getD ([], [])

theorem gtConvertBox_apply_zero (b : Box) : gtConvertBox b 0 = -b 1 := by
  simp [gtConvertBox, Tr_lidar_to_standard, Matrix.mulVec, Matrix.dotProduct,
    Fin.sum_univ_three, center]

theorem gtConvertBox_apply_one (b : Box) : gtConvertBox b 1 = b 0 := by
  simp [gtConvertBox, Tr_lidar_to_standard, Matrix.mulVec, Matrix.dotProduct,
    Fin.sum_univ_three, center]

theorem gtConvertBox_apply_two (b : Box) : gtConvertBox b 2 = b 2 := by
  simp [gtConvertBox, Tr_lidar_to_standard, Matrix.mulVec, Matrix.dotProduct,
    Fin.sum_univ_three, center]

theorem gtConvertBox_apply_six (b : Box) :
    gtConvertBox b 6 = b 6 + Real.pi / 2 := rfl

theorem formatBox3d_apply_zero (b : Box) : formatBox3d b 0 = b 1 := by
  simp [formatBox3d, Tr_standard_to_lidar, Matrix.mulVec, Matrix.dotProduct,
    Fin.sum_univ_three, center]

theorem formatBox3d_apply_one (b : Box) : formatBox3d b 1 = -b 0 := by
  simp [formatBox3d, Tr_standard_to_lidar, Matrix.mulVec, Matrix.dotProduct,
    Fin.sum_univ_three, center]

theorem formatBox3d_apply_two (b : Box) :
    formatBox3d b 2 = b 2 + b 5 * 0.5 := by
  simp [formatBox3d, Tr_standard_to_lidar, Matrix.mulVec, Matrix.dotProduct,
    Fin.sum_univ_three, center]

theorem formatBox3d_apply_six (b : Box) :
    formatBox3d b 6 = b 6 - Real.pi / 2 := rfl

theorem gtConvertBox_apply_three (b : Box) : gtConvertBox b 3 = b 3 := rfl

theorem gtConvertBox_apply_four (b : Box) : gtConvertBox b 4 = b 4 := rfl

theorem gtConvertBox_apply_five (b : Box) : gtConvertBox b 5 = b 5 := rfl

theorem formatBox3d_apply_three (b : Box) : formatBox3d b 3 = b 3 := rfl

theorem formatBox3d_apply_four (b : Box) : formatBox3d b 4 = b 4 := rfl

theorem formatBox3d_apply_five (b : Box) : formatBox3d b 5 = b 5 := rfl

theorem originShiftBox_apply_two (b : Box) :
    originShiftBox b 2 = b 2 - b 5 * 0.5 := by
  simp [originShiftBox]

theorem originShiftBox_apply_of_ne (b : Box) (i : Fin 7) (h : i ≠ 2) :
    originShiftBox b i = b i := by
  simp [originShiftBox, Function.update_noteq h]

/-- C4: the center conversion between the two coordinate conventions is an
invertible fixed linear map: the matrix used on prediction output is the
exact two-sided inverse of the matrix used on ground-truth input, and the
yaw offsets `+π/2` and `-π/2` are exact additive inverses (so the two yaw
shifts cancel). -/
theorem c4_center_maps_are_inverse :
    Tr_standard_to_lidar * Tr_lidar_to_standard = 1 ∧
    Tr_lidar_to_standard * Tr_standard_to_lidar = 1 ∧
    (∀ b : Box, formatBox3d (gtConvertBox b) 6 = b 6) ∧
    Real.pi / 2 + -(Real.pi / 2) = 0 := by
  refine ⟨?_, ?_, ?_, by ring⟩
  · rw [Tr_standard_to_lidar, Tr_lidar_to_standard, Matrix.mul_fin_three,
      Matrix.one_fin_three]
    norm_num
  · rw [Tr_standard_to_lidar, Tr_lidar_to_standard, Matrix.mul_fin_three,
      Matrix.one_fin_three]
    norm_num
  · intro b
    rw [formatBox3d_apply_six, gtConvertBox_apply_six]
    ring

/-- C1 (counterexample): applying `_format_boxes_3d` directly to the result
of the center rotation and yaw offset applied in `get_ann_info` does not
return the original box: on a box with height `dz = 2` the z coordinate
comes back as `z + 1`. -/
theorem c1_counterexample : formatBox3d (gtConvertBox bC1) ≠ bC1 := by
  intro h
  have h2 := congrFun h 2
  rw [formatBox3d_apply_two, gtConvertBox_apply_two, gtConvertBox_apply_five,
    show bC1 2 = (0 : ℝ) from rfl, show bC1 5 = (2 : ℝ) from rfl] at h2
  norm_num at h2

/-- C1 (amended): composing `_format_boxes_3d` with the rotation and yaw
offset of `get_ann_info` returns the original `x`, `y` and yaw exactly and
the z coordinate shifted up by half the box height; composing it with that
transform followed by the gravity-center-to-bottom-center shift that the
`LiDARInstance3DBoxes` constructor applies (z -= dz/2) returns the original
center and yaw exactly. -/
theorem c1_roundtrip (b : Box) :
    formatBox3d (gtConvertBox b) 0 = b 0 ∧
    formatBox3d (gtConvertBox b) 1 = b 1 ∧
    formatBox3d (gtConvertBox b) 6 = b 6 ∧
    formatBox3d (gtConvertBox b) 2 = b 2 + b 5 * 0.5 ∧
    formatBox3d (originShiftBox (gtConvertBox b)) 0 = b 0 ∧
    formatBox3d (originShiftBox (gtConvertBox b)) 1 = b 1 ∧
    formatBox3d (originShiftBox (gtConvertBox b)) 2 = b 2 ∧
    formatBox3d (originShiftBox (gtConvertBox b)) 6 = b 6 := by
  refine ⟨?_, ?_, ?_, ?_, ?_, ?_, ?_, ?_⟩
  · rw [formatBox3d_apply_zero, gtConvertBox_apply_one]
  · rw [formatBox3d_apply_one, gtConvertBox_apply_zero]; ring
  · rw [formatBox3d_apply_six, gtConvertBox_apply_six]; ring
  · rw [formatBox3d_apply_two, gtConvertBox_apply_two, gtConvertBox_apply_five]
  · rw [formatBox3d_apply_zero, originShiftBox_apply_of_ne _ _ (by decide),
      gtConvertBox_apply_one]
  · rw [formatBox3d_apply_one, originShiftBox_apply_of_ne _ _ (by decide),
      gtConvertBox_apply_zero]
    ring
  · rw [formatBox3d_apply_two, originShiftBox_apply_two,
      originShiftBox_apply_of_ne _ _ (by decide), gtConvertBox_apply_two,
      gtConvertBox_apply_five]
    ring
  · rw [formatBox3d_apply_six, originShiftBox_apply_of_ne _ _ (by decide),
      gtConvertBox_apply_six]
    ring

/-- C2: `get_ann_info` converts each ground-truth box from dataset-native
to framework-standard coordinates by multiplying the center 3-vector by
`Tr_lidar_to_standard = [[0,-1,0],[1,0,0],[0,0,1]]` and adding `π/2` to the
yaw (seventh component), leaving the three dimension components
unchanged. -/
theorem c2_get_ann_info_converts (ds : Dataset) (index : ℕ) (info : FrameInfo)
    (annos : Annos) (hinfo : ds.data_infos.get? index = some info)
    (hannos : info.annos = some annos) :
    ∃ r, (get_ann_info ds index).2 = some r ∧
      r.gt_bboxes_3d = annos.boxes_3d.map gtConvertBox ∧
      (∀ b : Box, center (gtConvertBox b) = Tr_lidar_to_standard.mulVec (center b)) ∧
      (∀ b : Box, gtConvertBox b 6 = b 6 + Real.pi / 2) ∧
      (∀ b : Box, gtConvertBox b 3 = b 3 ∧ gtConvertBox b 4 = b 4 ∧
        gtConvertBox b 5 = b 5) := by
  refine ⟨{ gt_bboxes_3d := annos.boxes_3d.map gtConvertBox,
            gt_labels_3d := annos.name.map classLabel,
            gt_labels := annos.name.map classLabel,
            gt_names := annos.name }, ?_, rfl, ?_, fun b => rfl,
          fun b => ⟨rfl, rfl, rfl⟩⟩
  · have hinfo2 : ds.data_infos[index]? = some info := by
      rw [← List.get?_eq_getElem?]; exact hinfo
    simp [get_ann_info, hinfo2, hannos]
  · intro b
    funext j
    fin_cases j <;> rfl

/-- Witness for C2 at the concrete one-frame dataset `ds5`. -/
theorem c2_get_ann_info_converts_witness :
    ∃ r, (get_ann_info ds5 0).2 = some r ∧
      r.gt_bboxes_3d = annos5.boxes_3d.map gtConvertBox ∧
      (∀ b : Box, center (gtConvertBox b) = Tr_lidar_to_standard.mulVec (center b)) ∧
      (∀ b : Box, gtConvertBox b 6 = b 6 + Real.pi / 2) ∧
      (∀ b : Box, gtConvertBox b 3 = b 3 ∧ gtConvertBox b 4 = b 4 ∧
        gtConvertBox b 5 = b 5) :=
  c2_get_ann_info_converts ds5 0 frame5 annos5 rfl rfl

/-- C3: `_format_boxes_3d` converts each predicted box to dataset-native
convention by multiplying the center 3-vector by
`Tr_standard_to_lidar = [[0,1,0],[-1,0,0],[0,0,1]]`, then adding half the
box height (sixth component) to the resulting z, and subtracting `π/2`
from the yaw. -/
theorem c3_format_boxes_3d_converts (boxes : List Box) (b : Box) :
    format_boxes_3d boxes = boxes.map formatBox3d ∧
    center (formatBox3d b) 0 = Tr_standard_to_lidar.mulVec (center b) 0 ∧
    center (formatBox3d b) 1 = Tr_standard_to_lidar.mulVec (center b) 1 ∧
    center (formatBox3d b) 2 = Tr_standard_to_lidar.mulVec (center b) 2 + b 5 * 0.5 ∧
    formatBox3d b 6 = b 6 - Real.pi / 2 :=
  ⟨rfl, rfl, rfl, rfl, rfl⟩

/-- C5 (failing input): `get_ann_info` writes the converted boxes back into
the annos dict of `self.data_infos[index]` (numpy in-place slice
assignment), so the stored frame record changes and a second call on the
same index returns a differently (doubly) converted result. -/
theorem c5_records_mutated :
    (get_ann_info ds5 0).1 ≠ ds5 ∧
    (get_ann_info (get_ann_info ds5 0).1 0).2 ≠ (get_ann_info ds5 0).2 := by
  have hb0 : gtConvertBox b5box 0 = 0 := by
    rw [gtConvertBox_apply_zero, show b5box 1 = (0 : ℝ) from rfl]
    norm_num
  have hb1 : gtConvertBox (gtConvertBox b5box) 0 = -1 := by
    rw [gtConvertBox_apply_zero, gtConvertBox_apply_one,
      show b5box 0 = (1 : ℝ) from rfl]
  constructor
  · intro h
    have h2 := congrArg
      (fun d => ((d.data_infos.headI.annos.getD default).boxes_3d.headI) 0) h
    simp [get_ann_info, ds5, frame5, annos5, List.headI] at h2
    rw [hb0, show b5box 0 = (1 : ℝ) from rfl] at h2
    norm_num at h2
  · intro h
    have h2 := congrArg (fun o => ((o.getD default).gt_bboxes_3d.headI) 0) h
    simp [get_ann_info, ds5, frame5, annos5, List.headI] at h2
    rw [hb1, hb0] at h2
    norm_num at h2

/-- C6 (failing input): in the record built by `_format_results` for a
prediction with label `0` — which `get_ann_info` assigns to the class
`Car`, index 0 of `CLASSES` — the emitted name is
`np.array(CLASSES)[0 - 1] = Cyclist` (numpy wrap-around indexing), not
`Car`; scores and frame id are forwarded as claimed. -/
theorem c6_name_uses_label_minus_one :
    (_format_results ds5 [pred6] (some "out")).1 =
      [("out/results_once.json", recs6)] ∧
    recs6.map PredRecord.name = [[some "Cyclist"]] ∧
    recs6.map PredRecord.score = [[(9 : ℝ) / 10]] ∧
    recs6.map PredRecord.frame_id = ["f0"] ∧
    classLabel "Car" = 0 ∧ CLASSES.get? 0 = some "Car" :=
  ⟨rfl, rfl, rfl, rfl, rfl, rfl⟩

theorem viewpad_one : viewpad (1 : Matrix (Fin 3) (Fin 3) ℝ) = 1 := by
  ext i j
  fin_cases i <;> fin_cases j <;>
    simp [viewpad, Matrix.one_apply, Matrix.vecHead, Matrix.vecTail] <;>
    decide

theorem T7_mul_S7 : T7 * S7 = 1 := by
  ext i j
  fin_cases i <;> fin_cases j <;>
    simp [T7, S7, Matrix.mul_apply, Fin.sum_univ_four, Matrix.one_apply,
      Matrix.vecHead, Matrix.vecTail]

theorem T7_inv : T7⁻¹ = S7 := Matrix.inv_eq_right_inv T7_mul_S7

/-- C7 (counterexample): on a frame whose camera-to-lidar calibration is the
pure translation `T7` and whose intrinsic is the identity, the `lidar2img`
matrix produced by `get_data_info` is not the padded intrinsic composed
with the inverse of the calibration matrix (the code composes with the
transpose of that inverse, which differs at entry (0, 3)). -/
theorem c7_counterexample :
    lidar2imgs7.headI ≠
      viewpad calib7.cam_intrinsic * calib7.cam_to_velo⁻¹ := by
  have hhead : lidar2imgs7.headI =
      viewpad calib7.cam_intrinsic * (T7⁻¹).transpose := by
    simp [lidar2imgs7, get_data_info, ds7, frame7, camera_list, List.headI,
      lidar2imgOf, calib7]
  intro h
  rw [hhead, T7_inv,
    show calib7.cam_intrinsic = (1 : Matrix (Fin 3) (Fin 3) ℝ) from rfl,
    show calib7.cam_to_velo = T7 from rfl, T7_inv, viewpad_one, one_mul,
    one_mul] at h
  have h2 := congrFun (congrFun h 0) 3
  rw [Matrix.transpose_apply] at h2
  rw [show S7 3 0 = (0 : ℝ) from rfl, show S7 0 3 = (-1 : ℝ) from rfl] at h2
  norm_num at h2

/-- C7 (amended): for every valid index, `get_data_info` returns a dict with
the point-cloud path of the frame, one image filename and one `lidar2img` matrix
per camera in the seven-camera list — the matrix being the padded intrinsic
composed with the transpose of the inverse of the camera-to-lidar
calibration matrix — and it carries the `ann_info` key iff the dataset is
not in test mode. -/
theorem c7_get_data_info (ds : Dataset) (index : ℕ) (info : FrameInfo)
    (hinfo : ds.data_infos.get? index = some info) :
    ∃ input, (get_data_info ds index).2 = some input ∧
      input.sample_idx = info.frame_id ∧
      input.pts_filename = info.lidar_path ∧
      input.img_filename = camera_list.map (fun cam =>
        ds.data_root ++ "/data/" ++ info.sequence_id ++ "/" ++ cam ++ "/" ++
          info.frame_id ++ ".jpg") ∧
      input.img_filename.length = 7 ∧
      input.lidar2img = camera_list.map (fun cam =>
        viewpad (info.calib cam).cam_intrinsic *
          ((info.calib cam).cam_to_velo⁻¹).transpose) ∧
      input.lidar2img.length = 7 ∧
      (input.ann_info.isSome = true ↔ ds.test_mode = false) ∧
      (ds.test_mode = false → input.ann_info = some (get_ann_info ds index).2) := by
  have hinfo2 : ds.data_infos[index]? = some info := by
    rw [← List.get?_eq_getElem?]; exact hinfo
  cases hT : ds.test_mode with
  | true =>
    have hgd : (get_data_info ds index).2 = some
        { sample_idx := info.frame_id
          pts_filename := info.lidar_path
          img_filename := camera_list.map fun cam =>
            ds.data_root ++ "/data/" ++ info.sequence_id ++ "/" ++ cam ++
              "/" ++ info.frame_id ++ ".jpg"
          lidar2img := camera_list.map fun cam => lidar2imgOf (info.calib cam)
          ann_info := none } := by
      simp [get_data_info, hinfo2, hT]
    exact ⟨_, hgd, rfl, rfl, rfl, rfl, rfl, rfl, by simp [hT], by simp [hT]⟩
  | false =>
    have hgd : (get_data_info ds index).2 = some
        { sample_idx := info.frame_id
          pts_filename := info.lidar_path
          img_filename := camera_list.map fun cam =>
            ds.data_root ++ "/data/" ++ info.sequence_id ++ "/" ++ cam ++
              "/" ++ info.frame_id ++ ".jpg"
          lidar2img := camera_list.map fun cam => lidar2imgOf (info.calib cam)
          ann_info := some (get_ann_info ds index).2 } := by
      simp [get_data_info, hinfo2, hT]
    exact ⟨_, hgd, rfl, rfl, rfl, rfl, rfl, rfl, by simp [hT], fun _ => rfl⟩

/-- Witness for the amended C7 at the concrete one-frame dataset `ds7`. -/
theorem c7_get_data_info_witness :
    ∃ input, (get_data_info ds7 0).2 = some input ∧
      input.sample_idx = frame7.frame_id ∧
      input.pts_filename = frame7.lidar_path ∧
      input.img_filename = camera_list.map (fun cam =>
        ds7.data_root ++ "/data/" ++ frame7.sequence_id ++ "/" ++ cam ++
          "/" ++ frame7.frame_id ++ ".jpg") ∧
      input.img_filename.length = 7 ∧
      input.lidar2img = camera_list.map (fun cam =>
        viewpad (frame7.calib cam).cam_intrinsic *
          ((frame7.calib cam).cam_to_velo⁻¹).transpose) ∧
      input.lidar2img.length = 7 ∧
      (input.ann_info.isSome = true ↔ ds7.test_mode = false) ∧
      (ds7.test_mode = false → input.ann_info = some (get_ann_info ds7 0).2) :=
  c7_get_data_info ds7 0 frame7 rfl

/-- C9: `prepare_train_data` returns `None` when the frame has no
annotation info; with `filter_empty_gt` set it also returns `None` when the
pipeline yields `None` or every ground-truth label equals `-1`, and
otherwise returns the pipeline output; and `get_ann_info` labels each name
by its index in the class tuple `CLASSES`, with
`-1` for names outside the list. -/
theorem c9_prepare_train_data (pipe : InputDict → Option TrainSample)
    (ds : Dataset) (index : ℕ) (info : FrameInfo)
    (hinfo : ds.data_infos.get? index = some info)
    (hT : ds.test_mode = false) :
    CLASSES = ["Car", "Bus", "Truck", "Pedestrain", "Cyclist"] ∧
    (info.annos = none → (prepare_train_data pipe ds index).2 = .ok none) ∧
    (∀ annos, info.annos = some annos →
      ∀ input, (get_data_info ds index).2 = some input →
        ((pipe input = none → (prepare_train_data pipe ds index).2 = .ok none) ∧
        (∀ ex, pipe input = some ex → ds.filter_empty_gt = true →
          (∀ l ∈ ex.gt_labels_3d, l = -1) →
          (prepare_train_data pipe ds index).2 = .ok none) ∧
        (∀ ex, pipe input = some ex → ds.filter_empty_gt = true →
          (∃ l ∈ ex.gt_labels_3d, l ≠ -1) →
          (prepare_train_data pipe ds index).2 = .ok (some ex)) ∧
        (ds.filter_empty_gt = false →
          (prepare_train_data pipe ds index).2 = .ok (pipe input)))) ∧
    (∀ annos r, info.annos = some annos → (get_ann_info ds index).2 = some r →
      r.gt_labels_3d = annos.name.map fun cat =>
        if cat ∈ CLASSES then (CLASSES.indexOf cat : ℤ) else -1) := by
  have hinfo2 : ds.data_infos[index]? = some info := by
    rw [← List.get?_eq_getElem?]; exact hinfo
  refine ⟨rfl, ?_, ?_, ?_⟩
  · intro hnone
    simp [prepare_train_data, get_data_info, get_ann_info, hinfo2, hT, hnone]
  · intro annos hannos input hinput
    have hann : (get_ann_info ds index).2 = some
        { gt_bboxes_3d := annos.boxes_3d.map gtConvertBox
          gt_labels_3d := annos.name.map classLabel
          gt_labels := annos.name.map classLabel
          gt_names := annos.name } := by
      simp [get_ann_info, hinfo2, hannos]
    have hgd : (get_data_info ds index).2 = some
        { sample_idx := info.frame_id
          pts_filename := info.lidar_path
          img_filename := camera_list.map fun cam =>
            ds.data_root ++ "/data/" ++ info.sequence_id ++ "/" ++ cam ++
              "/" ++ info.frame_id ++ ".jpg"
          lidar2img := camera_list.map fun cam => lidar2imgOf (info.calib cam)
          ann_info := some (get_ann_info ds index).2 } := by
      simp [get_data_info, hinfo2, hT]
    rw [hinput] at hgd
    have hin : input.ann_info = some (get_ann_info ds index).2 := by
      rw [Option.some.inj hgd]
    have hP : (prepare_train_data pipe ds index).2 =
        (match pipe input with
         | none => Except.ok none
         | some ex =>
           if ds.filter_empty_gt && ex.gt_labels_3d.all (fun l => l == -1) then
             Except.ok none
           else Except.ok (some ex)) := by
      rw [prepare_train_data]
      simp only [hinput, hin, hann]
      cases pipe input
      · rfl
      · dsimp only
        split <;> rfl
    refine ⟨?_, ?_, ?_, ?_⟩
    · intro hpipe
      rw [hP, hpipe]
    · intro ex hpipe hfilter hall
      have hall2 : ex.gt_labels_3d.all (fun l => l == -1) = true :=
        List.all_eq_true.mpr fun l hl => by
          rw [beq_iff_eq]
          exact hall l hl
      rw [hP, hpipe]
      simp [hfilter, hall2]
    · intro ex hpipe hfilter hex
      have hall2 : ex.gt_labels_3d.all (fun l => l == -1) = false := by
        rcases hex with ⟨l, hl, hlne⟩
        cases h3 : ex.gt_labels_3d.all (fun l => l == -1)
        · rfl
        · have := List.all_eq_true.mp h3 l hl
          rw [beq_iff_eq] at this
          exact absurd this hlne
      rw [hP, hpipe]
      simp [hfilter, hall2]
    · intro hfilter
      rw [hP]
      cases hpipe : pipe input
      · rfl
      · simp [hfilter]
  · intro annos r hannos hr
    have hann : (get_ann_info ds index).2 = some
        { gt_bboxes_3d := annos.boxes_3d.map gtConvertBox
          gt_labels_3d := annos.name.map classLabel
          gt_labels := annos.name.map classLabel
          gt_names := annos.name } := by
      simp [get_ann_info, hinfo2, hannos]
    rw [hann] at hr
    rw [← Option.some.inj hr]
    rfl

/-- Witness for C9 at the concrete dataset `ds9` with stub pipeline
`pipe9`. -/
theorem c9_prepare_train_data_witness :
    (prepare_train_data pipe9 ds9 0).2 = .ok (some sample9) ∧
    (get_ann_info ds9 0).2 = some r9 ∧ r9.gt_labels_3d = [0, -1] := by
  have h := c9_prepare_train_data pipe9 ds9 0 frame9 rfl rfl
  refine ⟨?_, rfl, ?_⟩
  · exact (h.2.2.1 annos9 rfl input9 rfl).2.2.1 sample9 rfl rfl
      ⟨0, by decide, by decide⟩
  · have h4 := h.2.2.2 annos9 r9 rfl rfl
    rw [h4]
    decide

theorem _format_results_ok_path (ds : Dataset) (results : List Pred)
    (b p : String)
    (h : (_format_results ds results (some b)).2 = .ok p) :
    p = b ++ "/results_once.json" := by
  rw [_format_results] at h
  cases hb : buildRecords ds.data_infos results with
  | none => rw [hb] at h; exact absurd h (by simp)
  | some annos =>
    rw [hb] at h
    exact (Except.ok.inj h).symm

theorem formatPerName_entries (ds : Dataset) (items : List ResultItem)
    (base : String) :
    ∀ (keys : List String) (w : List (String × List PredRecord))
      (entries : List (String × String)),
      formatPerName ds items base keys = some (w, entries) →
      entries = keys.map fun k =>
        (k, base ++ "/" ++ k ++ "/results_once.json") := by
  intro keys
  induction keys with
  | nil =>
    intro w entries h
    rw [formatPerName] at h
    rw [(Prod.mk.injEq _ _ _ _).mp (Option.some.inj h).symm |>.2]
    rfl
  | cons key keys ih =>
    intro w entries h
    rw [formatPerName] at h
    cases hproj : projectKey items key with
    | none => rw [hproj] at h; exact absurd h (by simp)
    | some results2 =>
      rw [hproj] at h
      simp only [Option.bind_eq_bind, Option.some_bind] at h
      cases hfr : (_format_results ds results2 (some (base ++ "/" ++ key))).2 with
      | error e => rw [hfr] at h; exact absurd h (by simp)
      | ok path =>
        rw [hfr] at h
        cases hrest : formatPerName ds items base keys with
        | none => rw [hrest] at h; exact absurd h (by simp)
        | some rest =>
          rw [hrest] at h
          simp only [Option.bind_eq_bind, Option.some_bind, pure,
            Option.some.injEq] at h
          have hsnd := congrArg Prod.snd h
          simp only at hsnd
          rw [← hsnd, List.map_cons]
          rw [_format_results_ok_path ds results2 _ _ hfr,
            ih rest.1 rest.2 (by rw [hrest])]

/-- C10: `format_results` fails its assertions — performing no file write —
when the results argument is not a list or its length differs from the
dataset length; on success it returns a single json path when the first
result has no modality key, and one json path per key of the first result
(the modality keys) when it has one. -/
theorem c10_format_results (ds : Dataset) (jsonfileBase : Option String) :
    (format_results ds PyResults.notList jsonfileBase =
      ([], .error "results must be a list")) ∧
    (∀ items, items.length ≠ ds.data_infos.length →
      format_results ds (.list items) jsonfileBase =
        ([], .error "The length of results is not equal to the dataset len")) ∧
    (∀ items r0 rest preds recs b2, items = r0 :: rest →
      items.length = ds.data_infos.length →
      itemHasKey r0 "pts_bbox" = false → itemHasKey r0 "img_bbox" = false →
      asPlainList items = some preds →
      buildRecords ds.data_infos preds = some recs →
      jsonfileBase = some b2 →
      (format_results ds (.list items) jsonfileBase).2 =
        .ok (.single (b2 ++ "/results_once.json"), none)) ∧
    (∀ items r0 rest b2 w entries, items = r0 :: rest →
      items.length = ds.data_infos.length →
      (itemHasKey r0 "pts_bbox" || itemHasKey r0 "img_bbox") = true →
      formatPerName ds items b2 (itemKeys r0) = some (w, entries) →
      format_results ds (.list items) (some b2) =
        (w, .ok (.perName entries, none)) ∧
      entries = (itemKeys r0).map fun k =>
        (k, b2 ++ "/" ++ k ++ "/results_once.json")) := by
  refine ⟨rfl, ?_, ?_, ?_⟩
  · intro items hlen
    simp [format_results, hlen]
  · intro items r0 rest preds recs b2 hitems hlen hk1 hk2 hplain hrecs hbase
    subst hitems hbase
    simp [format_results, hlen, hk1, hk2, hplain, _format_results, hrecs]
  · intro items r0 rest b2 w entries hitems hlen hk hfp
    subst hitems
    refine ⟨?_, formatPerName_entries ds (r0 :: rest) b2 (itemKeys r0)
      w entries hfp⟩
    simp [format_results, hlen, hk, hfp]

/-- Witness for C10: the four clauses at the one-frame dataset `ds8`. -/
theorem c10_format_results_witness :
    format_results ds8 PyResults.notList (some "out") =
      ([], .error "results must be a list") ∧
    format_results ds8 (.list []) (some "out") =
      ([], .error "The length of results is not equal to the dataset len") ∧
    (format_results ds8 (.list [.plain emptyPred]) (some "out")).2 =
      .ok (.single ("out" ++ "/results_once.json"), none) ∧
    format_results ds8 (.list [.nested [("pts_bbox", emptyPred)]])
      (some "out") = (pe10.1, .ok (.perName pe10.2, none)) ∧
    pe10.2 = ["pts_bbox"].map fun k =>
      (k, "out" ++ "/" ++ k ++ "/results_once.json") := by
  have h := c10_format_results ds8 (some "out")
  have h4 := h.2.2.2 [.nested [("pts_bbox", emptyPred)]]
    (.nested [("pts_bbox", emptyPred)]) [] "out" pe10.1 pe10.2 rfl rfl rfl rfl
  exact ⟨h.1, h.2.1 [] (by decide),
    h.2.2.1 [.plain emptyPred] (.plain emptyPred) [] [emptyPred] recs10 "out"
      rfl (by decide) rfl rfl rfl rfl rfl,
    h4.1, h4.2⟩

/-- C8: `evaluate` forwards the per-frame ground-truth annos and the
formatted result files to the external `once_eval` and returns its metric
dict; in the modality-split case each key is the modality name joined to
the metric name by a slash and each value is the metric rounded to four
decimal places. -/
theorem c8_evaluate (ds : Dataset) (results : PyResults)
    (jsonfileBase : Option String) (once_eval : OnceEval) (gts : List Annos)
    (hgts : ds.data_infos.mapM (fun info => info.annos) = some gts) :
    (∀ entries tmp,
      (format_results ds results jsonfileBase).2 = .ok (.perName entries, tmp) →
      evaluate ds results jsonfileBase once_eval =
        .ok (entries.flatMap fun entry =>
          (once_eval gts entry.2 CLASSES (some ["Overall&Distance"])).2.map
            fun m => (entry.1 ++ "/" ++ m.1, round4 m.2))) ∧
    (∀ path tmp,
      (format_results ds results jsonfileBase).2 = .ok (.single path, tmp) →
      evaluate ds results jsonfileBase once_eval =
        .ok (once_eval gts path CLASSES none).2) := by
  constructor
  · intro entries tmp h
    rw [evaluate]
    simp only [h, hgts]
  · intro path tmp h
    rw [evaluate]
    simp only [h, hgts]

/-- Witness for C8 at the one-frame dataset `ds8` and the stub metric
function `onceEv8`. -/
theorem c8_evaluate_witness :
    ds8.data_infos.mapM (fun info => info.annos) = some [annos8] ∧
    evaluate ds8 results8 (some "out") onceEv8 =
      .ok [("pts_bbox/m", 1 / 5000)] := by
  refine ⟨rfl, ?_⟩
  have h := (c8_evaluate ds8 results8 (some "out") onceEv8 [annos8] rfl).1
    [("pts_bbox", "out/pts_bbox/results_once.json")] none rfl
  have hr : round4 ((1 : ℚ) / 5000) = 1 / 5000 := by
    rw [round4, round_eq]
    norm_num
  have hlist : ([("pts_bbox", "out/pts_bbox/results_once.json")].flatMap
      fun entry =>
        List.map (fun m => (entry.1 ++ "/" ++ m.1, round4 m.2))
          (onceEv8 [annos8] entry.2 CLASSES (some ["Overall&Distance"])).2) =
      [("pts_bbox/m", round4 ((1 : ℚ) / 5000))] := rfl
  rw [h, hlist, hr]

end Once
